import Mathlib

/-!
Verification of the icq26a chat-client backend (src-tauri/src/commands.rs)
against its natural-language specification.

Strings are modelled as lists of characters (`Str`); the Rust `str`
primitives used by the code (`starts_with`, `strip_prefix`, `find`,
`lines`, `trim`, `split_once`, `join`) are given faithful executable
definitions below, and each Rust function under test is transcribed on
top of them.  Effectful commands (login, registration, logout,
verification cancel) are embedded as pure functions over an explicit
environment of network/filesystem outcomes, returning a result together
with the list of observable effects in program order.
-/

namespace Icq

/-- Character-list model of Rust `str` / `String`. -/
abbrev Str := List Char

/-- View a Lean string literal as a `Str`. -/
def toChars (s : String) : Str := s.data

/-- Rust `str::starts_with` on a literal pattern. -/
def hasPre (p s : Str) : Bool := p.isPrefixOf s

/-- Rust `str::strip_prefix`: `some` of the tail when `p` is a prefix. -/
def dropPre (p s : Str) : Option Str :=
  if p.isPrefixOf s then some (s.drop p.length) else none

/-- Rust `str::find(c)`: index of the first occurrence of a character. -/
def findChar (c : Char) (s : Str) : Option Nat :=
  match s with
  | [] => none
  | x :: xs => if x = c then some 0 else (findChar c xs).map (fun i => i + 1)

/-- Prepend a character to the first segment of a split. -/
def consHead (c : Char) : List Str → List Str
  | [] => [[c]]
  | l :: ls => (c :: l) :: ls

/-- Split on newline characters; always returns at least one segment. -/
def splitOnNl : Str → List Str
  | [] => [[]]
  | c :: cs => if c = '\n' then [] :: splitOnNl cs else consHead c (splitOnNl cs)

/-- Remove one trailing carriage return (for `\r\n` line endings). -/
def stripCr (l : Str) : Str :=
  if l.getLast? = some '\r' then l.dropLast else l

/-- Apply `f` to every segment except the last (only non-final segments
were terminated by a newline). -/
def mapButLast (f : Str → Str) : List Str → List Str
  | [] => []
  | [l] => [l]
  | l :: l2 :: ls => f l :: mapButLast f (l2 :: ls)

/-- Drop a trailing empty segment (Rust `lines` treats the final line
terminator as optional). -/
def dropTrailingEmpty (p : List Str) : List Str :=
  if p.getLast? = some [] then p.dropLast else p

/-- Rust `str::lines`: split at `\n` or `\r\n`, final terminator optional,
empty string yields no lines. -/
def rustLines (s : Str) : List Str :=
  if s = [] then [] else dropTrailingEmpty (mapButLast stripCr (splitOnNl s))

/-- Rust `[&str]::join("\n")`. -/
def joinNl : List Str → Str
  | [] => []
  | [l] => l
  | l :: l2 :: ls => l ++ '\n' :: joinNl (l2 :: ls)

/-- The Unicode `White_Space` code points (Rust `char::is_whitespace`). -/
def rustIsWhitespace (c : Char) : Bool :=
  ([0x09, 0x0A, 0x0B, 0x0C, 0x0D, 0x20, 0x85, 0xA0, 0x1680,
    0x2000, 0x2001, 0x2002, 0x2003, 0x2004, 0x2005, 0x2006, 0x2007,
    0x2008, 0x2009, 0x200A, 0x2028, 0x2029, 0x202F, 0x205F, 0x3000] : List Nat).contains c.toNat

/-- Rust `str::trim_start`. -/
def trimStart (s : Str) : Str := s.dropWhile rustIsWhitespace

/-- Rust `str::trim_end`. -/
def trimEnd (s : Str) : Str := (s.reverse.dropWhile rustIsWhitespace).reverse

/-- Rust `str::trim`. -/
def trim (s : Str) : Str := trimEnd (trimStart s)

/-- Rust `str::trim_end_matches(c)`. -/
def trimEndMatches (c : Char) (s : Str) : Str :=
  (s.reverse.dropWhile (fun x => x = c)).reverse

/-- Rust `str::split_once(c)`. -/
def splitOnce (c : Char) (s : Str) : Option (Str × Str) :=
  match findChar c s with
  | none => none
  | some i => some (s.take i, s.drop (i + 1))

/-- The quoted-line loop inside `extract_reply_fallback`: keep stripping
the `"> "` quote marker from successive lines until a non-quoted line. -/
def takeQuoted : List Str → List Str
  | [] => []
  | l :: ls =>
    match dropPre ['>', ' '] l with
    | some stripped => stripped :: takeQuoted ls
    | none => []

/-- `extract_reply_fallback` (commands.rs lines 50 to 72): parse the Matrix
reply fallback from a body, returning the quoted sender id and the
joined-and-trimmed quoted text. -/
def extract_reply_fallback (body : Str) : Option (Str × Str) :=
  if hasPre ['>', ' ', '<'] body = false then none
  else
    match rustLines body with
    | [] => none
    | first_line :: rest =>
      match dropPre ['>', ' ', '<'] first_line with
      | none => none
      | some after_bracket =>
        match findChar '>' after_bracket with
        | none => none
        | some end_bracket =>
          let sender := after_bracket.take end_bracket
          let first_quote := trimStart (after_bracket.drop (end_bracket + 1))
          let quoted_lines := first_quote :: takeQuoted rest
          some (sender, trim (joinNl quoted_lines))

/-- The skip-quoted-lines loop inside `strip_reply_fallback`: drop lines
while they start with `"> "` or equal `">"`. -/
def dropQuoted : List Str → List Str
  | [] => []
  | l :: ls =>
    if hasPre ['>', ' '] l || l = ['>'] then dropQuoted ls else l :: ls

/-- The peek step of `strip_reply_fallback`: skip one blank line after the
quoted block. -/
def skipBlank : List Str → List Str
  | [] => []
  | l :: ls => if l = [] then ls else l :: ls

/-- `strip_reply_fallback` (commands.rs lines 75 to 94): remove the Matrix
reply fallback from a body, returning the actual reply text. -/
def strip_reply_fallback (body : Str) : Str :=
  if hasPre ['>', ' '] body = false then body
  else joinNl (skipBlank (dropQuoted (rustLines body)))

/-- `mxc_to_http` (commands.rs lines 30 to 39): convert an mxc URL into an
HTTP thumbnail URL via the homeserver's media API. -/
def mxc_to_http (homeserver mxc_url : Str) : Option Str :=
  match dropPre (toChars "mxc://") mxc_url with
  | none => none
  | some path =>
    match splitOnce '/' path with
    | none => none
    | some (server_name, media_id) =>
      some (trimEndMatches '/' homeserver
        ++ toChars "/_matrix/media/v3/thumbnail/"
        ++ server_name ++ '/' :: media_id
        ++ toChars "?width=96&height=96&method=crop")

/-- Rust slice `s[..j]` with its bounds check made explicit: out of range
is a panic, modelled as `Except.error`. -/
def sliceTo (s : Str) (j : Nat) : Except Unit Str :=
  if j ≤ s.length then Except.ok (s.take j) else Except.error ()

/-- Rust slice `s[i..]` with its bounds check made explicit. -/
def sliceFrom (s : Str) (i : Nat) : Except Unit Str :=
  if i ≤ s.length then Except.ok (s.drop i) else Except.error ()

/-- `extract_reply_fallback` with every Rust slice replaced by its checked
form: `Except.error ()` marks an out-of-bounds panic. -/
def extract_reply_fallback_chk (body : Str) : Except Unit (Option (Str × Str)) :=
  if hasPre ['>', ' ', '<'] body = false then Except.ok none
  else
    match rustLines body with
    | [] => Except.ok none
    | first_line :: rest =>
      match dropPre ['>', ' ', '<'] first_line with
      | none => Except.ok none
      | some after_bracket =>
        match findChar '>' after_bracket with
        | none => Except.ok none
        | some end_bracket =>
          match sliceTo after_bracket end_bracket,
              sliceFrom after_bracket (end_bracket + 1) with
          | Except.ok sender, Except.ok tail =>
            Except.ok (some (sender, trim (joinNl (trimStart tail :: takeQuoted rest))))
          | _, _ => Except.error ()

/-- Presence states distinguished by the code (ruma `PresenceState`). -/
inductive PresenceState
  | online
  | offline
  | unavailable
deriving DecidableEq, Repr

/-- The fields of a `GET /presence` response that `fetch_user_presence`
inspects. -/
structure PresenceResponse where
  currently_active : Option Bool
  last_active_ago : Option Nat
  presence : PresenceState
deriving DecidableEq, Repr

/-- The presence-to-string mapping inside `fetch_user_presence`. -/
def presenceStr : PresenceState → Str
  | PresenceState.online => toChars "online"
  | PresenceState.unavailable => toChars "away"
  | PresenceState.offline => toChars "offline"

/-- `fetch_user_presence` (commands.rs lines 234 to 260): `none` both for
timeout/transport error (`outcome = none`) and for the stub-data response
of a server with presence disabled; otherwise the mapped status string. -/
def fetch_user_presence (outcome : Option PresenceResponse) : Option Str :=
  match outcome with
  | none => none
  | some r =>
    if r.currently_active = none ∧ r.last_active_ago = none
        ∧ r.presence = PresenceState.offline then none
    else some (presenceStr r.presence)

/-- Log messages emitted by `with_heartbeat`. -/
inductive HeartbeatMsg
  | stillWaiting (elapsed : Nat)
  | completedAfter (elapsed : Nat)
deriving DecidableEq, Repr

/-- The `select!` loop of `with_heartbeat`: `ticks` is the number of 5s
sleep intervals that elapse before the wrapped future completes with
`res`; `elapsed` is the running elapsed-seconds counter. -/
def heartbeatLoop (elapsed : Nat) (ticks : Nat) (res : α) : α × List HeartbeatMsg :=
  match ticks with
  | 0 => (res, if 5 ≤ elapsed then [HeartbeatMsg.completedAfter elapsed] else [])
  | Nat.succ t =>
    let out := heartbeatLoop (elapsed + 5) t res
    (out.1, HeartbeatMsg.stillWaiting (elapsed + 5) :: out.2)

/-- `with_heartbeat` (commands.rs lines 201 to 230): run the wrapped
operation, emitting a progress message per 5s interval and a final notice
when total time reached 5s. -/
def with_heartbeat (ticks : Nat) (res : α) : α × List HeartbeatMsg :=
  heartbeatLoop 0 ticks res

/-- The live connection handle (matrix-sdk `Client`), abstracted to the
data the session commands read from it. -/
structure ClientHandle where
  homeserver : Str
deriving DecidableEq, Repr

/-- `PersistedSession` (matrix_client.rs lines 50 to 57): the durable
credential record written to the session file. -/
structure PersistedSession where
  homeserver_url : Str
  user_id : Str
  device_id : Str
  access_token : Str
  refresh_token : Option Str
deriving DecidableEq, Repr

/-- Observable side effects of the session commands, in program order. -/
inductive Eff
  | clearStore
  | createDir
  | restoreSession
  | writeSession (sd : PersistedSession)
  | installHandle (c : ClientHandle)
  | abortSyncTasks
  | remoteLogout
  | clearHandle
  | deleteSessionFile
deriving DecidableEq, Repr

/-- Outcome of one timed network step: `tokio::time::timeout` elapsing,
the inner call failing, or success with a value. -/
inductive NetOutcome (α : Type)
  | timeout
  | failure
  | success (a : α)
deriving DecidableEq, Repr

/-- The fields of a successful `/login` response that `matrix_login`
reads. -/
structure LoginResponse where
  user_id : Str
  device_id : Str
  access_token : Str
  refresh_token : Option Str
deriving DecidableEq, Repr

/-- Environment of `matrix_login`: the outcome of each fallible step, in
the order the code performs them. -/
structure LoginEnv where
  serverNameOk : Bool
  dataDirOk : Bool
  storeExists : Bool
  createDirOk : Bool
  build : NetOutcome ClientHandle
  login : NetOutcome LoginResponse
  sessionPathOk : Bool
  serializeOk : Bool
  writeOk : Bool
deriving DecidableEq, Repr

/-- `matrix_login` (commands.rs lines 270 to 356): returns the command
result together with the effect trace. -/
def matrix_login (env : LoginEnv) : Except Str Str × List Eff :=
  if env.serverNameOk = false then (Except.error (toChars "Invalid homeserver"), [])
  else if env.dataDirOk = false then (Except.error (toChars "Could not determine data directory"), [])
  else
    let tr0 := if env.storeExists then [Eff.clearStore] else []
    if env.createDirOk = false then (Except.error (toChars "Failed to create data dir"), tr0)
    else
      let tr1 := tr0 ++ [Eff.createDir]
      match env.build with
      | NetOutcome.timeout => (Except.error (toChars "Client build timed out"), tr1)
      | NetOutcome.failure => (Except.error (toChars "Failed to build client"), tr1)
      | NetOutcome.success client =>
        match env.login with
        | NetOutcome.timeout => (Except.error (toChars "Login timed out"), tr1)
        | NetOutcome.failure => (Except.error (toChars "Login failed"), tr1)
        | NetOutcome.success resp =>
          let sd : PersistedSession :=
            { homeserver_url := client.homeserver
              user_id := resp.user_id
              device_id := resp.device_id
              access_token := resp.access_token
              refresh_token := resp.refresh_token }
          if env.sessionPathOk = false then
            (Except.error (toChars "Could not determine data directory"), tr1)
          else if env.serializeOk = false then
            (Except.error (toChars "Failed to serialize session"), tr1)
          else if env.writeOk = false then
            (Except.error (toChars "Failed to write session"), tr1)
          else
            (Except.ok resp.user_id, tr1 ++ [Eff.writeSession sd, Eff.installHandle client])

/-- One entry of the UIAA `flows` array; `stages` is `none` when the JSON
object has no `stages` array, and each stage is `none` when the JSON value
is not a string (Rust `as_str`). -/
structure RegFlow where
  stages : Option (List (Option Str))
deriving DecidableEq, Repr

/-- The JSON fields of a `/register` response body that `matrix_register`
and `finish_registration` read (each `as_str` view). -/
structure RegRespBody where
  user_id : Option Str
  access_token : Option Str
  device_id : Option Str
  refresh_token : Option Str
  error : Option Str
  session : Option Str
  flows : Option (List RegFlow)
deriving DecidableEq, Repr

/-- An HTTP response to a registration request: status code plus parsed
body. -/
structure HttpResp where
  status : Nat
  body : RegRespBody
deriving DecidableEq, Repr

/-- `reqwest::StatusCode::is_success`: the 2xx range. -/
def isSuccessStatus (s : Nat) : Bool := 200 ≤ s && s ≤ 299

/-- The stage name of the trivial no-op UIAA flow. -/
def dummyStage : Str := toChars "m.login.dummy"

/-- The `has_dummy_flow` check of `matrix_register` (commands.rs lines 453
to 459): some flow has a `stages` array of length exactly one whose single
entry is the string `m.login.dummy`. -/
def has_dummy_flow (flows : Option (List RegFlow)) : Bool :=
  match flows with
  | none => false
  | some fl =>
    fl.any (fun f =>
      match f.stages with
      | none => false
      | some stages =>
        stages.length == 1 && decide (stages.get? 0 = some (some dummyStage)))

/-- The retry request body of step 2 of `matrix_register`: auth type
`m.login.dummy` plus the server-issued session token when present. -/
structure RetrySubmission where
  auth_type : Str
  auth_session : Option Str
deriving DecidableEq, Repr

/-- `finish_registration` (commands.rs lines 509 to 562): restore the
fresh session on the SDK client, persist it, then install the handle.
`userIdParseOk`, `restoreOk`, `sessionPathOk`, `serializeOk`, `writeOk`
are the outcomes of the fallible steps in code order. -/
def finish_registration (client : ClientHandle) (resp : RegRespBody)
    (userIdParseOk restoreOk sessionPathOk serializeOk writeOk : Bool) :
    Except Str Str × List Eff :=
  match resp.user_id with
  | none => (Except.error (toChars "Registration response missing user_id"), [])
  | some user_id =>
    match resp.access_token with
    | none => (Except.error (toChars "Registration response missing access_token"), [])
    | some access_token =>
      match resp.device_id with
      | none => (Except.error (toChars "Registration response missing device_id"), [])
      | some device_id =>
        if userIdParseOk = false then (Except.error (toChars "Invalid user_id"), [])
        else if restoreOk = false then
          (Except.error (toChars "Registration succeeded but session setup failed"), [])
        else
          let sd : PersistedSession :=
            { homeserver_url := client.homeserver
              user_id := user_id
              device_id := device_id
              access_token := access_token
              refresh_token := resp.refresh_token }
          if sessionPathOk = false then
            (Except.error (toChars "Could not determine data directory"), [Eff.restoreSession])
          else if serializeOk = false then
            (Except.error (toChars "Failed to serialize session"), [Eff.restoreSession])
          else if writeOk = false then
            (Except.error (toChars "Failed to write session"), [Eff.restoreSession])
          else
            (Except.ok user_id,
              [Eff.restoreSession, Eff.writeSession sd, Eff.installHandle client])

/-- Environment of `matrix_register`: credentials plus the outcome of each
fallible step in code order. -/
structure RegisterEnv where
  homeserver : Str
  serverNameOk : Bool
  dataDirOk : Bool
  storeExists : Bool
  createDirOk : Bool
  build : NetOutcome ClientHandle
  first : NetOutcome HttpResp
  firstJsonOk : Bool
  retry : NetOutcome HttpResp
  retryJsonOk : Bool
  userIdParseOk : Bool
  restoreOk : Bool
  sessionPathOk : Bool
  serializeOk : Bool
  writeOk : Bool
deriving DecidableEq, Repr

/-- The `UnsupportedAuthFlow` error message of `matrix_register`, naming
the homeserver. -/
def unsupportedFlowMsg (homeserver : Str) : Str :=
  toChars "This server requires additional verification steps (e.g. email or captcha). Please register at "
    ++ homeserver ++ toChars " in your browser."

/-- The generic registration error message carrying the server's `error`
field when present. -/
def regFailedMsg (err : Option Str) : Str :=
  toChars "Registration failed: "
    ++ (match err with | some e => e | none => toChars "Registration failed")

/-- `matrix_register` (commands.rs lines 359 to 506): results are paired
with the list of UIAA retry submissions sent and the effect trace. -/
def matrix_register (env : RegisterEnv) :
    Except Str Str × List RetrySubmission × List Eff :=
  if env.serverNameOk = false then
    (Except.error (toChars "Invalid homeserver"), [], [])
  else if env.dataDirOk = false then
    (Except.error (toChars "Could not determine data directory"), [], [])
  else
    let tr0 := if env.storeExists then [Eff.clearStore] else []
    if env.createDirOk = false then
      (Except.error (toChars "Failed to create data dir"), [], tr0)
    else
      let tr1 := tr0 ++ [Eff.createDir]
      match env.build with
      | NetOutcome.timeout => (Except.error (toChars "Client build timed out"), [], tr1)
      | NetOutcome.failure => (Except.error (toChars "Failed to build client"), [], tr1)
      | NetOutcome.success client =>
        match env.first with
        | NetOutcome.timeout => (Except.error (toChars "Registration timed out"), [], tr1)
        | NetOutcome.failure => (Except.error (toChars "Registration failed"), [], tr1)
        | NetOutcome.success resp =>
          if env.firstJsonOk = false then
            (Except.error (toChars "Failed to parse response"), [], tr1)
          else if isSuccessStatus resp.status then
            let fin := finish_registration client resp.body env.userIdParseOk
              env.restoreOk env.sessionPathOk env.serializeOk env.writeOk
            (fin.1, [], tr1 ++ fin.2)
          else if resp.status ≠ 401 then
            (Except.error (regFailedMsg resp.body.error), [], tr1)
          else if has_dummy_flow resp.body.flows = false then
            (Except.error (unsupportedFlowMsg env.homeserver), [], tr1)
          else
            let sub : RetrySubmission :=
              { auth_type := dummyStage, auth_session := resp.body.session }
            match env.retry with
            | NetOutcome.timeout =>
              (Except.error (toChars "Registration timed out"), [sub], tr1)
            | NetOutcome.failure =>
              (Except.error (toChars "Registration failed"), [sub], tr1)
            | NetOutcome.success r2 =>
              if isSuccessStatus r2.status = false then
                if env.retryJsonOk = false then
                  (Except.error (toChars "Failed to parse error"), [sub], tr1)
                else
                  (Except.error (regFailedMsg r2.body.error), [sub], tr1)
              else if env.retryJsonOk = false then
                (Except.error (toChars "Failed to parse response"), [sub], tr1)
              else
                let fin := finish_registration client r2.body env.userIdParseOk
                  env.restoreOk env.sessionPathOk env.serializeOk env.writeOk
                (fin.1, [sub], tr1 ++ fin.2)

/-- The shared mutable state the session commands touch: the client slot
and the persisted session file. -/
structure AppState where
  handle : Option ClientHandle
  sessionFile : Option PersistedSession
deriving DecidableEq, Repr

/-- Environment of `matrix_logout`: outcome of the best-effort remote
logout call (discarded by the code) and of the session-path resolution. -/
structure LogoutEnv where
  remoteLogoutOk : Bool
  sessionPathOk : Bool
deriving DecidableEq, Repr

/-- `matrix_logout` (commands.rs lines 565 to 586): abort sync tasks,
best-effort remote logout, clear the handle, delete the session file. -/
def matrix_logout (env : LogoutEnv) (st : AppState) :
    Except Str Unit × List Eff × AppState :=
  let tr := [Eff.abortSyncTasks]
    ++ (match st.handle with | some _ => [Eff.remoteLogout] | none => [])
    ++ [Eff.clearHandle]
    ++ (if env.sessionPathOk then [Eff.deleteSessionFile] else [])
  (Except.ok (),
    tr,
    { handle := none
      sessionFile := if env.sessionPathOk then none else st.sessionFile })

/-- A sample all-successful login environment used by concrete
witnesses. -/
def sampleLoginEnv : LoginEnv where
  serverNameOk := true
  dataDirOk := true
  storeExists := true
  createDirOk := true
  build := NetOutcome.success { homeserver := toChars "https://hs" }
  login := NetOutcome.success
    { user_id := toChars "@u:hs"
      device_id := toChars "DEV"
      access_token := toChars "tok"
      refresh_token := none }
  sessionPathOk := true
  serializeOk := true
  writeOk := true

/-- A sample UIAA 401 response body advertising only the trivial
`m.login.dummy` flow. -/
def sampleUiaaBody : RegRespBody where
  user_id := none
  access_token := none
  device_id := none
  refresh_token := none
  error := none
  session := some (toChars "sess")
  flows := some [{ stages := some [some dummyStage] }]

/-- A sample successful registration response body. -/
def sampleRegOkBody : RegRespBody where
  user_id := some (toChars "@u:hs")
  access_token := some (toChars "tok")
  device_id := some (toChars "DEV")
  refresh_token := none
  error := none
  session := none
  flows := none

/-- A sample registration environment: first request rejected with 401
and a dummy flow, retry succeeds. -/
def sampleRegisterEnv : RegisterEnv where
  homeserver := toChars "https://hs"
  serverNameOk := true
  dataDirOk := true
  storeExists := false
  createDirOk := true
  build := NetOutcome.success { homeserver := toChars "https://hs" }
  first := NetOutcome.success { status := 401, body := sampleUiaaBody }
  firstJsonOk := true
  retry := NetOutcome.success { status := 200, body := sampleRegOkBody }
  retryJsonOk := true
  userIdParseOk := true
  restoreOk := true
  sessionPathOk := true
  serializeOk := true
  writeOk := true

/-- A sample logged-in application state used by concrete witnesses. -/
def sampleLoggedInState : AppState where
  handle := some { homeserver := toChars "https://hs" }
  sessionFile := some
    { homeserver_url := toChars "https://hs"
      user_id := toChars "@u:hs"
      device_id := toChars "DEV"
      access_token := toChars "tok"
      refresh_token := none }

/-- Filter an effect trace down to the session-file write and the
handle installation. -/
def sessionEffs (tr : List Eff) : List Eff :=
  tr.filter (fun e =>
    match e with
    | Eff.writeSession _ => true
    | Eff.installHandle _ => true
    | _ => false)

/-- One element of the newest-first `chunk` of a `/messages` response, as
`get_room_messages` classifies it: events that fail to deserialize or are
not room messages, redacted events (`as_original` is `None`), edit events
(a `Replacement` relation with the target id and the extracted new body),
and original messages (with the fields the loop pushes). -/
inductive TimelineItem
  | nonMessage
  | nonOriginal
  | replacement (target : Str) (new_body : Str)
  | original (event_id : Str) (sender : Str) (body : Str)
deriving DecidableEq, Repr

/-- A built message of the history batch (event id, sender, body). -/
structure BuiltMsg where
  event_id : Str
  sender : Str
  body : Str
deriving DecidableEq, Repr

/-- `HashMap::insert`: overwrite the value at the key, else append. -/
def insertA (k v : Str) : List (Str × Str) → List (Str × Str)
  | [] => [(k, v)]
  | (k2, v2) :: rest =>
    if k2 = k then (k, v) :: rest else (k2, v2) :: insertA k v rest

/-- `HashMap::get`. -/
def lookupA (k : Str) : List (Str × Str) → Option Str
  | [] => none
  | (k2, v) :: rest => if k2 = k then some v else lookupA k rest

/-- The chunk loop of `get_room_messages` (commands.rs lines 1058 to
1170): build the message list in chunk order and collect edit
replacements keyed by target event id (empty new bodies are not
collected). -/
def buildBatch (msgs : List BuiltMsg) (edits : List (Str × Str)) :
    List TimelineItem → List BuiltMsg × List (Str × Str)
  | [] => (msgs, edits)
  | TimelineItem.nonMessage :: rest => buildBatch msgs edits rest
  | TimelineItem.nonOriginal :: rest => buildBatch msgs edits rest
  | TimelineItem.replacement t nb :: rest =>
    buildBatch msgs (if nb = [] then edits else insertA t nb edits) rest
  | TimelineItem.original e s b :: rest =>
    buildBatch (msgs ++ [{ event_id := e, sender := s, body := b }]) edits rest

/-- The edit-application pass of `get_room_messages` (commands.rs lines
1173 to 1177): replace the body of each message whose event id has a
collected edit. -/
def applyEdits (edits : List (Str × Str)) (msgs : List BuiltMsg) : List BuiltMsg :=
  msgs.map (fun m =>
    match lookupA m.event_id edits with
    | some nb => { m with body := nb }
    | none => m)

/-- The batch-processing tail of `get_room_messages`: build, apply edits,
reverse to chronological order. -/
def get_room_messages_batch (items : List TimelineItem) : List BuiltMsg :=
  let built := buildBatch [] [] items
  (applyEdits built.2 built.1).reverse

/-- Environment of `cancel_verification`: whether a client handle is
installed, whether the user id parses, the outstanding-request lookup
(`some cancelOk` when found, with the outcome of `cancel()`), and the
active-verification lookup (`some (some mismatchOk)` for a SAS
verification with the outcome of `mismatch()`, `some none` for a non-SAS
verification, `none` when absent). -/
structure CancelEnv where
  loggedIn : Bool
  userIdOk : Bool
  request : Option Bool
  verification : Option (Option Bool)
deriving DecidableEq, Repr

/-- UI events emitted by `cancel_verification`. -/
inductive EmitEv
  | cancelled
deriving DecidableEq, Repr

/-- `cancel_verification` (commands.rs lines 2015 to 2057): cancel an
outstanding request, else signal a mismatch on an active SAS exchange,
then emit `verification_cancelled`; failures of the underlying calls
return early. -/
def cancel_verification (env : CancelEnv) : Except Str Unit × List EmitEv :=
  if env.loggedIn = false then (Except.error (toChars "Not logged in"), [])
  else if env.userIdOk = false then (Except.error (toChars "Invalid user_id"), [])
  else
    match env.request with
    | some cancelOk =>
      if cancelOk = false then (Except.error (toChars "Failed to cancel"), [])
      else (Except.ok (), [EmitEv.cancelled])
    | none =>
      match env.verification with
      | some (some mismatchOk) =>
        if mismatchOk = false then (Except.error (toChars "Failed to cancel"), [])
        else (Except.ok (), [EmitEv.cancelled])
      | some none => (Except.ok (), [EmitEv.cancelled])
      | none => (Except.ok (), [EmitEv.cancelled])

/-- A line of text containing neither a newline nor a carriage return
(so that joining with `"\n"` and re-splitting round-trips). -/
abbrev cleanLine (l : Str) : Prop := '\n' ∉ l ∧ '\r' ∉ l

/-- A well-formed reply-fallback body: a quoted header line naming the
sender, further quoted lines, a blank line, then the reply text. -/
def mkFallbackBody (sender q0 : Str) (qs : List Str) (reply : Str) : Str :=
  joinNl ((['>', ' ', '<'] ++ sender ++ '>' :: ' ' :: q0)
    :: (qs.map (fun q => ['>', ' '] ++ q) ++ ([] :: [reply])))

example : strip_reply_fallback (toChars "> <@u:s> hi\n\nreply") = toChars "reply" := by decide
example : extract_reply_fallback (toChars "> <@u:s> hi\n> more\n\nreply")
    = some (toChars "@u:s", toChars "hi\nmore") := by decide
example : strip_reply_fallback (toChars "> a\n\n> b") = toChars "> b" := by decide
example : strip_reply_fallback (toChars "> b") = toChars "" := by decide
example : mxc_to_http (toChars "https://hs/") (toChars "mxc://srv/abc")
    = some (toChars "https://hs/_matrix/media/v3/thumbnail/srv/abc?width=96&height=96&method=crop") := by decide
example : mxc_to_http (toChars "https://hs") (toChars "http://x") = none := by decide

/-! ## Helper lemmas -/

theorem heartbeatLoop_fst {α : Type} (elapsed ticks : Nat) (res : α) :
    (heartbeatLoop elapsed ticks res).1 = res := by
  induction ticks generalizing elapsed with
  | zero => simp [heartbeatLoop]
  | succ t ih => simp [heartbeatLoop, ih]

theorem login_ok_sessionEffs :
    ∀ (env : LoginEnv) (uid : Str), (matrix_login env).1 = Except.ok uid →
      ∃ sd c, sessionEffs (matrix_login env).2
        = [Eff.writeSession sd, Eff.installHandle c] := by
  intro env uid h
  obtain ⟨sn, dd, se, cd, bld, lg, sp, sz, wr⟩ := env
  cases sn <;> cases dd <;> cases cd <;>
    cases bld <;> (try cases lg) <;>
    cases sp <;> cases sz <;> cases wr <;> cases se <;>
    simp_all [matrix_login] <;>
    exact ⟨_, _, rfl⟩

theorem login_install_implies_ok :
    ∀ (env : LoginEnv) (c : ClientHandle),
      Eff.installHandle c ∈ (matrix_login env).2 →
      ∃ uid, (matrix_login env).1 = Except.ok uid := by
  intro env c h
  obtain ⟨sn, dd, se, cd, bld, lg, sp, sz, wr⟩ := env
  cases sn <;> cases dd <;> cases cd <;>
    cases bld <;> (try cases lg) <;>
    cases sp <;> cases sz <;> cases wr <;> cases se <;>
    simp_all [matrix_login]

theorem finish_registration_ok_sessionEffs :
    ∀ (client : ClientHandle) (resp : RegRespBody) (a b p q w : Bool) (uid : Str),
      (finish_registration client resp a b p q w).1 = Except.ok uid →
      ∃ sd, sessionEffs (finish_registration client resp a b p q w).2
        = [Eff.writeSession sd, Eff.installHandle client] := by
  intro client resp a b p q w uid h
  obtain ⟨ui, tok, di, rt, er, ss, fl⟩ := resp
  cases ui <;> cases tok <;> cases di <;>
    cases a <;> cases b <;> cases p <;> cases q <;> cases w <;>
    simp_all [finish_registration] <;>
    exact ⟨_, rfl⟩

theorem finish_registration_install_implies_ok :
    ∀ (client : ClientHandle) (resp : RegRespBody) (a b p q w : Bool) (c : ClientHandle),
      Eff.installHandle c ∈ (finish_registration client resp a b p q w).2 →
      ∃ uid, (finish_registration client resp a b p q w).1 = Except.ok uid := by
  intro client resp a b p q w c h
  obtain ⟨ui, tok, di, rt, er, ss, fl⟩ := resp
  cases ui <;> cases tok <;> cases di <;>
    cases a <;> cases b <;> cases p <;> cases q <;> cases w <;>
    simp_all [finish_registration]

theorem isPre_append (p t : Str) : p.isPrefixOf (p ++ t) = true := by
  induction p with
  | nil => simp [List.isPrefixOf]
  | cons c cs ih => simp [List.isPrefixOf, ih]

theorem hasPre_append (p t : Str) : hasPre p (p ++ t) = true := isPre_append p t

theorem dropPre_append (p t : Str) : dropPre p (p ++ t) = some t := by
  simp [dropPre, isPre_append, List.drop_left]

theorem splitOnNl_no_nl (l : Str) (h : '\n' ∉ l) : splitOnNl l = [l] := by
  induction l with
  | nil => rfl
  | cons c cs ih =>
    have hc : c ≠ '\n' := by rintro rfl; exact h (List.mem_cons_self _ _)
    have h2 : '\n' ∉ cs := fun hm => h (List.mem_cons_of_mem _ hm)
    simp [splitOnNl, hc, ih h2, consHead]

theorem splitOnNl_append_nl (l t : Str) (h : '\n' ∉ l) :
    splitOnNl (l ++ '\n' :: t) = l :: splitOnNl t := by
  induction l with
  | nil => simp [splitOnNl]
  | cons c cs ih =>
    have hc : c ≠ '\n' := by rintro rfl; exact h (List.mem_cons_self _ _)
    have h2 : '\n' ∉ cs := fun hm => h (List.mem_cons_of_mem _ hm)
    simp [splitOnNl, hc, ih h2, consHead]

theorem joinNl_cons (l : Str) (ls : List Str) (h : ls ≠ []) :
    joinNl (l :: ls) = l ++ '\n' :: joinNl ls := by
  cases ls with
  | nil => exact absurd rfl h
  | cons a as => rfl

theorem splitOnNl_joinNl (ls : List Str) (h : ls ≠ [])
    (hc : ∀ l ∈ ls, '\n' ∉ l) : splitOnNl (joinNl ls) = ls := by
  induction ls with
  | nil => exact absurd rfl h
  | cons l rest ih =>
    cases rest with
    | nil => exact splitOnNl_no_nl l (hc l (List.mem_cons_self _ _))
    | cons a as =>
      rw [joinNl_cons l (a :: as) (by simp),
        splitOnNl_append_nl l _ (hc l (List.mem_cons_self _ _)),
        ih (by simp) (fun x hx => hc x (List.mem_cons_of_mem _ hx))]

theorem mem_of_getLast?_eq {α : Type} (l : List α) (a : α)
    (h : l.getLast? = some a) : a ∈ l := by
  induction l with
  | nil => simp [List.getLast?] at h
  | cons b bs ih =>
    cases bs with
    | nil =>
      simp [List.getLast?] at h
      simp [h]
    | cons c cs =>
      rw [List.getLast?_cons_cons] at h
      exact List.mem_cons_of_mem _ (ih h)

theorem stripCr_id (l : Str) (h : '\r' ∉ l) : stripCr l = l := by
  unfold stripCr
  cases hl : l.getLast? with
  | none => simp
  | some c =>
    have hc : c ≠ '\r' := by
      rintro rfl; exact h (mem_of_getLast?_eq l _ hl)
    simp [hc]

theorem mapButLast_id (ls : List Str) (h : ∀ l ∈ ls, '\r' ∉ l) :
    mapButLast stripCr ls = ls := by
  induction ls with
  | nil => rfl
  | cons l rest ih =>
    cases rest with
    | nil => rfl
    | cons a as =>
      show stripCr l :: mapButLast stripCr (a :: as) = l :: a :: as
      rw [stripCr_id l (h l (List.mem_cons_self _ _)),
        ih (fun x hx => h x (List.mem_cons_of_mem _ hx))]

theorem dropTrailingEmpty_id (p : List Str) (h : p.getLast? ≠ some []) :
    dropTrailingEmpty p = p := by
  unfold dropTrailingEmpty
  simp [h]

theorem joinNl_ne_nil (ls : List Str) (h : ls ≠ [])
    (h2 : ls.getLast? ≠ some []) : joinNl ls ≠ [] := by
  cases ls with
  | nil => exact absurd rfl h
  | cons l rest =>
    cases rest with
    | nil =>
      have hl : l ≠ [] := by
        intro he
        exact h2 (by rw [he]; rfl)
      simpa [joinNl] using hl
    | cons a as => simp [joinNl]

theorem rustLines_joinNl (ls : List Str) (h : ls ≠ [])
    (hclean : ∀ l ∈ ls, cleanLine l) (hlast : ls.getLast? ≠ some []) :
    rustLines (joinNl ls) = ls := by
  unfold rustLines
  rw [if_neg (joinNl_ne_nil ls h hlast),
    splitOnNl_joinNl ls h (fun l hl => (hclean l hl).1),
    mapButLast_id ls (fun l hl => (hclean l hl).2)]
  exact dropTrailingEmpty_id ls hlast

theorem findChar_append_self (c : Char) (s t : Str) (h : c ∉ s) :
    findChar c (s ++ c :: t) = some s.length := by
  induction s with
  | nil => simp [findChar]
  | cons a as ih =>
    have ha : a ≠ c := by rintro rfl; exact h (List.mem_cons_self _ _)
    have h2 : c ∉ as := fun hm => h (List.mem_cons_of_mem _ hm)
    simp [findChar, ha, ih h2]

theorem findChar_lt (c : Char) (s : Str) (i : Nat) (h : findChar c s = some i) :
    i < s.length := by
  induction s generalizing i with
  | nil => simp [findChar] at h
  | cons a as ih =>
    by_cases ha : a = c
    · simp [findChar, ha] at h
      simp only [List.length_cons]
      omega
    · simp [findChar, ha] at h
      obtain ⟨j, hj, hij⟩ := h
      have := ih j hj
      simp only [List.length_cons]
      omega

theorem drop_len_succ (s : Str) (c : Char) (t : Str) :
    (s ++ c :: t).drop (s.length + 1) = t := by
  have he : s ++ c :: t = (s ++ [c]) ++ t := by simp
  have hl : (s ++ [c]).length = s.length + 1 := by simp
  rw [he, ← hl, List.drop_left]

theorem trimStart_space (q : Str) : trimStart (' ' :: q) = trimStart q := by
  simp [trimStart, List.dropWhile_cons,
    show rustIsWhitespace ' ' = true from rfl]

theorem takeQuoted_mapped (qs : List Str) (r : List Str) :
    takeQuoted (qs.map (fun q => ['>', ' '] ++ q) ++ ([] :: r)) = qs := by
  induction qs with
  | nil => simp [takeQuoted, dropPre, List.isPrefixOf]
  | cons q rest ih =>
    simp only [List.map_cons, List.cons_append]
    show (match dropPre ['>', ' '] (['>', ' '] ++ q) with
      | some stripped => stripped :: takeQuoted (rest.map (fun q => ['>', ' '] ++ q) ++ ([] :: r))
      | none => []) = q :: rest
    rw [dropPre_append, ih]

theorem cleanLine_append (a b : Str) (ha : cleanLine a) (hb : cleanLine b) :
    cleanLine (a ++ b) := by
  obtain ⟨ha1, ha2⟩ := ha
  obtain ⟨hb1, hb2⟩ := hb
  constructor
  · simp only [List.mem_append, not_or]
    exact ⟨ha1, hb1⟩
  · simp only [List.mem_append, not_or]
    exact ⟨ha2, hb2⟩

theorem dropPre_none (p s : Str) (h : hasPre p s = false) : dropPre p s = none := by
  unfold hasPre at h
  simp [dropPre, h]

theorem buildBatch_append (xs ys : List TimelineItem) (msgs : List BuiltMsg)
    (edits : List (Str × Str)) :
    buildBatch msgs edits (xs ++ ys)
      = buildBatch (buildBatch msgs edits xs).1 (buildBatch msgs edits xs).2 ys := by
  induction xs generalizing msgs edits with
  | nil => simp [buildBatch]
  | cons it rest ih =>
    cases it <;> simp [buildBatch, ih]

theorem buildBatch_fst_edits_irrel (items : List TimelineItem)
    (msgs : List BuiltMsg) (e1 e2 : List (Str × Str)) :
    (buildBatch msgs e1 items).1 = (buildBatch msgs e2 items).1 := by
  induction items generalizing msgs e1 e2 with
  | nil => simp [buildBatch]
  | cons it rest ih =>
    cases it <;> simp only [buildBatch] <;> exact ih _ _ _

theorem lookupA_insert_self (m : List (Str × Str)) (k v : Str) :
    lookupA k (insertA k v m) = some v := by
  induction m with
  | nil => simp [insertA, lookupA]
  | cons kv rest ih =>
    obtain ⟨k2, v2⟩ := kv
    by_cases h : k2 = k
    · simp [insertA, lookupA, h]
    · simp [insertA, lookupA, h, ih]

theorem lookupA_insert_ne (m : List (Str × Str)) (k t v : Str) (h : k ≠ t) :
    lookupA k (insertA t v m) = lookupA k m := by
  induction m with
  | nil => simp [insertA, lookupA, Ne.symm h]
  | cons kv rest ih =>
    obtain ⟨k2, v2⟩ := kv
    by_cases h2 : k2 = t
    · subst h2
      simp [insertA, lookupA, Ne.symm h]
    · simp [insertA, lookupA, h2, ih]

theorem buildBatch_snd_lookup_congr (items : List TimelineItem) (k : Str)
    (msgs1 msgs2 : List BuiltMsg) (e1 e2 : List (Str × Str))
    (h : lookupA k e1 = lookupA k e2) :
    lookupA k (buildBatch msgs1 e1 items).2
      = lookupA k (buildBatch msgs2 e2 items).2 := by
  induction items generalizing msgs1 msgs2 e1 e2 with
  | nil => simpa [buildBatch] using h
  | cons it rest ih =>
    cases it with
    | nonMessage => simp [buildBatch]; exact ih _ _ _ _ h
    | nonOriginal => simp [buildBatch]; exact ih _ _ _ _ h
    | original e s b => simp [buildBatch]; exact ih _ _ _ _ h
    | replacement t nb =>
      by_cases hnb : nb = []
      · simp [buildBatch, hnb]
        exact ih _ _ _ _ h
      · simp [buildBatch, hnb]
        apply ih
        by_cases hk : k = t
        · subst hk
          rw [lookupA_insert_self, lookupA_insert_self]
        · rw [lookupA_insert_ne _ _ _ _ hk, lookupA_insert_ne _ _ _ _ hk]
          exact h

theorem applyEdits_congr (msgs : List BuiltMsg) (e1 e2 : List (Str × Str))
    (h : ∀ m ∈ msgs, lookupA m.event_id e1 = lookupA m.event_id e2) :
    applyEdits e1 msgs = applyEdits e2 msgs := by
  unfold applyEdits
  exact List.map_congr_left fun m hm => by rw [h m hm]

theorem applyEdits_ids (msgs : List BuiltMsg) (e : List (Str × Str)) :
    (applyEdits e msgs).map BuiltMsg.event_id = msgs.map BuiltMsg.event_id := by
  unfold applyEdits
  rw [List.map_map]
  apply List.map_congr_left
  intro m _
  cases h : lookupA m.event_id e <;> simp [h]

theorem logout_clears_both :
    ∀ (env : LogoutEnv) (st : AppState), env.sessionPathOk = true →
      (matrix_logout env st).2.2 = { handle := none, sessionFile := none } := by
  intro env st h
  simp [matrix_logout, h]

/-! ## Claim theorems -/

/-- C4: the heartbeat wrapper is result-transparent — for every wrapped
operation outcome `res` (a value or an error) and every number of elapsed
progress intervals, `with_heartbeat` returns exactly `res`. -/
theorem with_heartbeat_transparent {α : Type} (ticks : Nat) (res : α) :
    (with_heartbeat ticks res).1 = res :=
  heartbeatLoop_fst 0 ticks res

/-- C7: presence resolution reports unsupported (`none`) exactly when the
response has no currently-active flag, no last-active-ago timestamp and a
default-offline presence — and whenever any of the three conditions
fails, a real presence status is returned. -/
theorem fetch_user_presence_spec :
    (∀ r : PresenceResponse,
      fetch_user_presence (some r) = none ↔
        (r.currently_active = none ∧ r.last_active_ago = none
          ∧ r.presence = PresenceState.offline)) ∧
    (∀ r : PresenceResponse,
      ¬ (r.currently_active = none ∧ r.last_active_ago = none
          ∧ r.presence = PresenceState.offline) →
        fetch_user_presence (some r) = some (presenceStr r.presence)) := by
  constructor
  · intro r
    by_cases h : r.currently_active = none ∧ r.last_active_ago = none
        ∧ r.presence = PresenceState.offline
    · simp [fetch_user_presence, h]
    · simp [fetch_user_presence, h]
  · intro r h
    simp [fetch_user_presence, h]

/-- Witness for C7 at a concrete online response. -/
theorem fetch_user_presence_spec_witness :
    fetch_user_presence
        (some { currently_active := some true
                last_active_ago := none
                presence := PresenceState.online })
      = some (presenceStr PresenceState.online) :=
  fetch_user_presence_spec.2
    { currently_active := some true
      last_active_ago := none
      presence := PresenceState.online } (by decide)

/-- C3 counterexample: stripping is not idempotent — stripping
`"> a\n\n> b"` yields `"> b"`, which a second strip reduces to `""`. -/
theorem strip_reply_fallback_not_idempotent :
    strip_reply_fallback (strip_reply_fallback (toChars "> a\n\n> b"))
      ≠ strip_reply_fallback (toChars "> a\n\n> b") := by decide

/-- C3 (amended): a body not beginning with the quote marker `"> "` is
returned unchanged, and consequently stripping is idempotent on every
body whose stripped result does not itself begin with the marker. -/
theorem strip_reply_fallback_behavior :
    (∀ body : Str, hasPre ['>', ' '] body = false →
      strip_reply_fallback body = body) ∧
    (∀ body : Str, hasPre ['>', ' '] (strip_reply_fallback body) = false →
      strip_reply_fallback (strip_reply_fallback body) = strip_reply_fallback body) := by
  have base : ∀ body : Str, hasPre ['>', ' '] body = false →
      strip_reply_fallback body = body := by
    intro body h
    simp [strip_reply_fallback, h]
  exact ⟨base, fun body h => base _ h⟩

/-- Witness for C3 at concrete bodies. -/
theorem strip_reply_fallback_behavior_witness :
    strip_reply_fallback (toChars "hello") = toChars "hello" ∧
    strip_reply_fallback (strip_reply_fallback (toChars "> q\n\nreply"))
      = strip_reply_fallback (toChars "> q\n\nreply") :=
  ⟨strip_reply_fallback_behavior.1 (toChars "hello") (by decide),
   strip_reply_fallback_behavior.2 (toChars "> q\n\nreply") (by decide)⟩

/-- C5: logout returns success, clears the handle and deletes the session
file regardless of the outcome of the best-effort remote logout call
(provided the per-application session path resolves). -/
theorem matrix_logout_best_effort :
    ∀ (env : LogoutEnv) (st : AppState), env.sessionPathOk = true →
      (matrix_logout env st).1 = Except.ok () ∧
      (matrix_logout env st).2.2.handle = none ∧
      (matrix_logout env st).2.2.sessionFile = none ∧
      matrix_logout { remoteLogoutOk := false, sessionPathOk := env.sessionPathOk } st
        = matrix_logout { remoteLogoutOk := true, sessionPathOk := env.sessionPathOk } st := by
  intro env st h
  simp [matrix_logout, h]

/-- Witness for C5: a logged-in state whose remote logout fails. -/
theorem matrix_logout_best_effort_witness :
    (matrix_logout { remoteLogoutOk := false, sessionPathOk := true } sampleLoggedInState).1
        = Except.ok () ∧
      (matrix_logout { remoteLogoutOk := false, sessionPathOk := true }
          sampleLoggedInState).2.2.handle = none := by
  have h := matrix_logout_best_effort
    { remoteLogoutOk := false, sessionPathOk := true } sampleLoggedInState rfl
  exact ⟨h.1, h.2.1⟩

/-- C9 counterexample: when an outstanding request is found but its
`cancel()` call fails, `cancel_verification` returns without emitting
the Cancelled notification. -/
theorem cancel_verification_misses_emit :
    EmitEv.cancelled ∉ (cancel_verification
      { loggedIn := true, userIdOk := true, request := some false,
        verification := none }).2 := by decide

/-- C9 (amended): `cancel_verification` emits Cancelled exactly on its
success paths — including when neither a request nor an active exchange
is found — and returns an error without emitting when the client is
absent, the user id is invalid, or the underlying cancel/mismatch call
fails. -/
theorem cancel_verification_emit_spec :
    ∀ env : CancelEnv,
      ((cancel_verification env).1 = Except.ok () →
        (cancel_verification env).2 = [EmitEv.cancelled]) ∧
      (∀ e : Str, (cancel_verification env).1 = Except.error e →
        (cancel_verification env).2 = []) := by
  intro env
  obtain ⟨l, u, req, ver⟩ := env
  cases l <;> cases u <;>
    rcases req with _ | cOk <;>
    rcases ver with _ | vOpt <;>
    first
      | (cases cOk <;> simp [cancel_verification])
      | (rcases vOpt with _ | mOk <;>
          first
            | (cases mOk <;> simp [cancel_verification])
            | simp [cancel_verification])
      | simp [cancel_verification]

/-- Witness for C9 at an environment where neither a request nor an
active exchange is found. -/
theorem cancel_verification_emit_spec_witness :
    (cancel_verification
        { loggedIn := true
          userIdOk := true
          request := none
          verification := none }).2 = [EmitEv.cancelled] :=
  (cancel_verification_emit_spec
    { loggedIn := true
      userIdOk := true
      request := none
      verification := none }).1 rfl

/-- C1: on every successful login and every successful registration the
persisted session is written to disk strictly before the handle is
installed (and the handle is never installed on a failed run); logout
clears both the handle and the persisted session file. -/
theorem session_file_before_handle :
    (∀ (env : LoginEnv) (uid : Str), (matrix_login env).1 = Except.ok uid →
      ∃ sd c, sessionEffs (matrix_login env).2
        = [Eff.writeSession sd, Eff.installHandle c]) ∧
    (∀ (env : LoginEnv) (c : ClientHandle),
      Eff.installHandle c ∈ (matrix_login env).2 →
      ∃ uid, (matrix_login env).1 = Except.ok uid) ∧
    (∀ (client : ClientHandle) (resp : RegRespBody) (a b p q w : Bool) (uid : Str),
      (finish_registration client resp a b p q w).1 = Except.ok uid →
      ∃ sd, sessionEffs (finish_registration client resp a b p q w).2
        = [Eff.writeSession sd, Eff.installHandle client]) ∧
    (∀ (client : ClientHandle) (resp : RegRespBody) (a b p q w : Bool) (c : ClientHandle),
      Eff.installHandle c ∈ (finish_registration client resp a b p q w).2 →
      ∃ uid, (finish_registration client resp a b p q w).1 = Except.ok uid) ∧
    (∀ (env : LogoutEnv) (st : AppState), env.sessionPathOk = true →
      (matrix_logout env st).1 = Except.ok () ∧
      (matrix_logout env st).2.2 = { handle := none, sessionFile := none }) :=
  ⟨login_ok_sessionEffs, login_install_implies_ok,
   finish_registration_ok_sessionEffs, finish_registration_install_implies_ok,
   fun env st h => ⟨rfl, logout_clears_both env st h⟩⟩

/-- Witness for C1: a concrete fully successful login. -/
theorem session_file_before_handle_witness :
    ∃ sd c, sessionEffs (matrix_login sampleLoginEnv).2
      = [Eff.writeSession sd, Eff.installHandle c] :=
  session_file_before_handle.1 sampleLoginEnv (toChars "@u:hs") rfl

/-- C2: when the initial registration request comes back 401, the code
resubmits exactly once — with auth type `m.login.dummy` and the
server-issued session token attached — iff some advertised flow is the
single stage `m.login.dummy`; without such a flow it fails with a message
naming the homeserver and sends no retry; a non-401 failure surfaces the
server error with no retry. -/
theorem matrix_register_uiaa_spec :
    (∀ (env : RegisterEnv) (resp : HttpResp) (client : ClientHandle),
      env.serverNameOk = true → env.dataDirOk = true → env.createDirOk = true →
      env.build = NetOutcome.success client →
      env.first = NetOutcome.success resp → env.firstJsonOk = true →
      resp.status = 401 → has_dummy_flow resp.body.flows = true →
        (matrix_register env).2.1
          = [{ auth_type := dummyStage, auth_session := resp.body.session }]) ∧
    (∀ (env : RegisterEnv) (resp : HttpResp) (client : ClientHandle),
      env.serverNameOk = true → env.dataDirOk = true → env.createDirOk = true →
      env.build = NetOutcome.success client →
      env.first = NetOutcome.success resp → env.firstJsonOk = true →
      resp.status = 401 → has_dummy_flow resp.body.flows = false →
        (matrix_register env).1 = Except.error (unsupportedFlowMsg env.homeserver) ∧
        (matrix_register env).2.1 = [] ∧
        ∃ s t, unsupportedFlowMsg env.homeserver = s ++ env.homeserver ++ t) ∧
    (∀ (env : RegisterEnv) (resp : HttpResp) (client : ClientHandle),
      env.serverNameOk = true → env.dataDirOk = true → env.createDirOk = true →
      env.build = NetOutcome.success client →
      env.first = NetOutcome.success resp → env.firstJsonOk = true →
      isSuccessStatus resp.status = false → resp.status ≠ 401 →
        (matrix_register env).1 = Except.error (regFailedMsg resp.body.error) ∧
        (matrix_register env).2.1 = []) := by
  refine ⟨?_, ?_, ?_⟩
  · intro env resp client h1 h2 h3 h4 h5 h6 h401 hd
    obtain ⟨hs, sn, dd, se, cd, bld, fst, fj, rt, rj, up, ro, spk, sz, wr⟩ := env
    simp only at h1 h2 h3 h4 h5 h6
    subst h1 h2 h3 h4 h5 h6
    obtain ⟨st, body⟩ := resp
    simp only at h401 hd
    subst h401
    cases rt <;> simp [matrix_register, isSuccessStatus, hd] <;>
      split_ifs <;> rfl
  · intro env resp client h1 h2 h3 h4 h5 h6 h401 hd
    obtain ⟨hs, sn, dd, se, cd, bld, fst, fj, rt, rj, up, ro, spk, sz, wr⟩ := env
    simp only at h1 h2 h3 h4 h5 h6
    subst h1 h2 h3 h4 h5 h6
    obtain ⟨st, body⟩ := resp
    simp only at h401 hd
    subst h401
    refine ⟨?_, ?_, toChars "This server requires additional verification steps (e.g. email or captcha). Please register at ", toChars " in your browser.", rfl⟩ <;>
      simp [matrix_register, isSuccessStatus, hd]
  · intro env resp client h1 h2 h3 h4 h5 h6 hss hne
    obtain ⟨hs, sn, dd, se, cd, bld, fst, fj, rt, rj, up, ro, spk, sz, wr⟩ := env
    simp only at h1 h2 h3 h4 h5 h6
    subst h1 h2 h3 h4 h5 h6
    obtain ⟨st, body⟩ := resp
    simp only at hss hne
    constructor <;> simp [matrix_register, hss, hne]

/-- Witness for C2: the sample 401-with-dummy-flow registration retries
exactly once with the session token attached. -/
theorem matrix_register_uiaa_spec_witness :
    (matrix_register sampleRegisterEnv).2.1
      = [{ auth_type := dummyStage, auth_session := some (toChars "sess") }] :=
  matrix_register_uiaa_spec.1 sampleRegisterEnv
    { status := 401, body := sampleUiaaBody }
    { homeserver := toChars "https://hs" }
    rfl rfl rfl rfl rfl rfl rfl (by decide)

/-- C6: a collected edit replacement whose target event id matches no
built message leaves the returned batch unchanged (silently dropped), and
the returned messages are the built batch — bodies replaced by exact
event-id match — reversed to chronological order. -/
theorem get_room_messages_edit_spec :
    (∀ (pre post : List TimelineItem) (t nb : Str),
      (∀ m ∈ (buildBatch [] [] (pre ++ post)).1, m.event_id ≠ t) →
      get_room_messages_batch (pre ++ TimelineItem.replacement t nb :: post)
        = get_room_messages_batch (pre ++ post)) ∧
    (∀ items : List TimelineItem,
      (get_room_messages_batch items).map BuiltMsg.event_id
        = ((buildBatch [] [] items).1.map BuiltMsg.event_id).reverse) := by
  constructor
  · intro pre post t nb hmem
    unfold get_room_messages_batch
    rw [buildBatch_append pre (TimelineItem.replacement t nb :: post),
      buildBatch_append pre post]
    simp only [buildBatch]
    by_cases hnb : nb = []
    · simp [hnb]
    · rw [if_neg hnb]
      rw [buildBatch_append pre post] at hmem
      have hfst :
          (buildBatch (buildBatch [] [] pre).1
            (insertA t nb (buildBatch [] [] pre).2) post).1
          = (buildBatch (buildBatch [] [] pre).1 (buildBatch [] [] pre).2 post).1 :=
        buildBatch_fst_edits_irrel post _ _ _
    -- the two runs build the same messages; their edit maps agree on every
    -- built message id because the extra key t is none of them
      rw [hfst]
      have hlk : ∀ m ∈ (buildBatch (buildBatch [] [] pre).1
          (buildBatch [] [] pre).2 post).1,
          lookupA m.event_id (buildBatch (buildBatch [] [] pre).1
            (insertA t nb (buildBatch [] [] pre).2) post).2
          = lookupA m.event_id (buildBatch (buildBatch [] [] pre).1
              (buildBatch [] [] pre).2 post).2 := by
        intro m hm
        exact buildBatch_snd_lookup_congr post m.event_id _ _ _ _
          (lookupA_insert_ne _ _ _ _ (hmem m hm))
      rw [applyEdits_congr _ _ _ hlk]
  · intro items
    unfold get_room_messages_batch
    rw [List.map_reverse, applyEdits_ids]

/-- Witness for C6: an edit targeting an absent event id is dropped. -/
theorem get_room_messages_edit_spec_witness :
    get_room_messages_batch
        [TimelineItem.original (toChars "$e1") (toChars "@a:hs") (toChars "hi"),
          TimelineItem.replacement (toChars "$missing") (toChars "new")]
      = get_room_messages_batch
          [TimelineItem.original (toChars "$e1") (toChars "@a:hs") (toChars "hi")] :=
  get_room_messages_edit_spec.1
    [TimelineItem.original (toChars "$e1") (toChars "@a:hs") (toChars "hi")]
    [] (toChars "$missing") (toChars "new") (by decide)

/-- C8: a body not starting with the quote-fallback marker yields no
match, and a well-formed fallback body yields exactly the quoted sender
and the joined-and-trimmed quoted text. -/
theorem extract_reply_fallback_spec :
    (∀ body : Str, hasPre ['>', ' ', '<'] body = false →
      extract_reply_fallback body = none) ∧
    (∀ (sender q0 : Str) (qs : List Str) (reply : Str),
      cleanLine sender → '>' ∉ sender → cleanLine q0 →
      (∀ q ∈ qs, cleanLine q) → cleanLine reply → reply ≠ [] →
      extract_reply_fallback (mkFallbackBody sender q0 qs reply)
        = some (sender, trim (joinNl (trimStart q0 :: qs)))) := by
  constructor
  · intro body h
    simp [extract_reply_fallback, h]
  · intro sender q0 qs reply hs hgt hq0 hqs hr hrne
    unfold mkFallbackBody
    have hm3 : cleanLine ['>', ' ', '<'] := by decide
    have hm2 : cleanLine ['>', ' '] := by decide
    have hfclean : cleanLine (['>', ' ', '<'] ++ sender ++ '>' :: ' ' :: q0) :=
      cleanLine_append ['>', ' ', '<'] (sender ++ '>' :: ' ' :: q0) hm3
        (cleanLine_append sender ('>' :: ' ' :: q0) hs
          (cleanLine_append ['>', ' '] q0 hm2 hq0))
    have htclean : ∀ l ∈ (qs.map (fun q => ['>', ' '] ++ q) ++ ([] :: [reply])),
        cleanLine l := by
      intro l hl
      rcases List.mem_append.mp hl with hmap | hrest
      · obtain ⟨q, hq, rfl⟩ := List.mem_map.mp hmap
        exact cleanLine_append _ _ hm2 (hqs q hq)
      · rcases (by simpa using hrest : l = [] ∨ l = reply) with rfl | rfl
        · constructor <;> simp
        · exact hr
    have hclean : ∀ l ∈ ((['>', ' ', '<'] ++ sender ++ '>' :: ' ' :: q0)
        :: (qs.map (fun q => ['>', ' '] ++ q) ++ ([] :: [reply]))), cleanLine l := by
      intro l hl
      rcases List.mem_cons.mp hl with rfl | h2
      · exact hfclean
      · exact htclean l h2
    have hlast : ((['>', ' ', '<'] ++ sender ++ '>' :: ' ' :: q0)
        :: (qs.map (fun q => ['>', ' '] ++ q) ++ ([] :: [reply]))).getLast?
        = some reply := by
      have he : ((['>', ' ', '<'] ++ sender ++ '>' :: ' ' :: q0)
            :: (qs.map (fun q => ['>', ' '] ++ q) ++ ([] :: [reply])))
          = ((['>', ' ', '<'] ++ sender ++ '>' :: ' ' :: q0)
            :: (qs.map (fun q => ['>', ' '] ++ q) ++ [[]])) ++ [reply] := by
        simp
      rw [he, List.getLast?_concat]
    have hlastne : ((['>', ' ', '<'] ++ sender ++ '>' :: ' ' :: q0)
        :: (qs.map (fun q => ['>', ' '] ++ q) ++ ([] :: [reply]))).getLast?
        ≠ some [] := by
      rw [hlast]
      simp [hrne]
    have hlines := rustLines_joinNl
      ((['>', ' ', '<'] ++ sender ++ '>' :: ' ' :: q0)
        :: (qs.map (fun q => ['>', ' '] ++ q) ++ ([] :: [reply])))
      (by simp) hclean hlastne
    have htailne : (qs.map (fun q => ['>', ' '] ++ q) ++ ([] :: [reply])) ≠ [] := by
      simp
    have hpre : hasPre ['>', ' ', '<']
        (joinNl ((['>', ' ', '<'] ++ sender ++ '>' :: ' ' :: q0)
          :: (qs.map (fun q => ['>', ' '] ++ q) ++ ([] :: [reply])))) = true := by
      rw [joinNl_cons _ _ htailne]
      have he : (['>', ' ', '<'] ++ sender ++ '>' :: ' ' :: q0)
            ++ '\n' :: joinNl (qs.map (fun q => ['>', ' '] ++ q) ++ ([] :: [reply]))
          = ['>', ' ', '<'] ++ ((sender ++ '>' :: ' ' :: q0)
            ++ '\n' :: joinNl (qs.map (fun q => ['>', ' '] ++ q) ++ ([] :: [reply]))) := by
        simp
      rw [he]
      exact hasPre_append _ _
    have hdp : dropPre ['>', ' ', '<'] (['>', ' ', '<'] ++ sender ++ '>' :: ' ' :: q0)
        = some (sender ++ '>' :: ' ' :: q0) := by
      rw [List.append_assoc]
      exact dropPre_append _ _
    unfold extract_reply_fallback
    rw [if_neg (fun hc => absurd (hpre.symm.trans hc) (by decide))]
    simp only [hlines, hdp,
      findChar_append_self '>' sender (' ' :: q0) hgt,
      List.take_left, drop_len_succ, trimStart_space, takeQuoted_mapped]

/-- Witness for C8: a marker-less body and a concrete two-line fallback. -/
theorem extract_reply_fallback_spec_witness :
    extract_reply_fallback (toChars "no marker") = none ∧
    extract_reply_fallback
        (mkFallbackBody (toChars "@u:s") (toChars "hi") [toChars "more"] (toChars "reply"))
      = some (toChars "@u:s", toChars "hi\nmore") :=
  ⟨extract_reply_fallback_spec.1 (toChars "no marker") (by decide),
   extract_reply_fallback_spec.2 (toChars "@u:s") (toChars "hi")
     [toChars "more"] (toChars "reply")
     (by decide) (by decide) (by decide) (by decide) (by decide) (by decide)⟩

/-- C10: the pure parsing helpers are panic-free — the checked-slicing
variant of `extract_reply_fallback` never hits an out-of-bounds slice on
any input, and `mxc_to_http` returns `none` for every input missing the
`mxc://` marker or the server/media separator. -/
theorem pure_helpers_total :
    (∀ body : Str, extract_reply_fallback_chk body
        = Except.ok (extract_reply_fallback body)) ∧
    (∀ hs url : Str, hasPre (toChars "mxc://") url = false →
        mxc_to_http hs url = none) ∧
    (∀ hs url path : Str, dropPre (toChars "mxc://") url = some path →
        findChar '/' path = none → mxc_to_http hs url = none) := by
  refine ⟨?_, ?_, ?_⟩
  · intro body
    unfold extract_reply_fallback_chk extract_reply_fallback
    by_cases h : hasPre ['>', ' ', '<'] body = false
    · simp [h]
    · rw [if_neg h, if_neg h]
      cases hl : rustLines body with
      | nil => simp
      | cons fl rest =>
        simp only []
        cases hdp : dropPre ['>', ' ', '<'] fl with
        | none => simp
        | some ab =>
          simp only []
          cases hf : findChar '>' ab with
          | none => simp
          | some i =>
            simp only []
            have hlt := findChar_lt '>' ab i hf
            simp [sliceTo, sliceFrom, Nat.le_of_lt hlt, Nat.succ_le_of_lt hlt]
  · intro hs url h
    simp [mxc_to_http, dropPre_none _ _ h]
  · intro hs url path hdp hfc
    simp [mxc_to_http, hdp, splitOnce, hfc]

/-- Witness for C10 at concrete inputs: a truncated fallback header, a
non-mxc URL and an mxc URL with no separator. -/
theorem pure_helpers_total_witness :
    extract_reply_fallback_chk (toChars "> <broken")
        = Except.ok (extract_reply_fallback (toChars "> <broken")) ∧
    mxc_to_http (toChars "https://hs") (toChars "http://x") = none ∧
    mxc_to_http (toChars "https://hs") (toChars "mxc://noslash") = none :=
  ⟨pure_helpers_total.1 (toChars "> <broken"),
   pure_helpers_total.2.1 (toChars "https://hs") (toChars "http://x") (by decide),
   pure_helpers_total.2.2 (toChars "https://hs") (toChars "mxc://noslash")
     (toChars "noslash") (by decide) (by decide)⟩

end Icq
